import Mathlib

/-!
Shallow embedding of the command execution broker of `server-azure.py`
(repository `py-az-mcp`).

The embedded code is:
  * `run_azure_command`  (src/server-azure.py, lines 155-228): the process
    runner — launches an external process, reads its streams under an
    optional timeout, and normalizes the outcome into a JSON-envelope string;
  * `authenticate_with_service_principal` (lines 230-257) and
    `ensure_valid_token` (lines 259-265): the credential lifecycle manager;
  * `azure_cli` (lines 267-315): the execution broker — command
    normalization, long-running classification, result re-parsing and the
    retry-on-auth-failure path.

Modelling conventions, used throughout:
  * JSON serialization is modelled semantically: a wire string is either the
    serialization of a unique JSON value (`Wire.json j`, produced by
    `json.dumps`) or a text that does not parse as JSON (`Wire.raw s`).
    `json.loads` succeeds exactly on the former.  The round-trip property of
    the Python `json` library (dumps then loads is the identity) is a fact
    about the external library, represented here by the constructors.
  * The asynchronous process of `run_azure_command` is modelled by its
    externally observable behavior `ProcBehavior`: the time at which both
    output streams are drained to EOF (`readsDone`, `none` when that never
    happens), the time of process exit (`exitTime`, `none` when the process
    never exits), the exit code and the captured stream contents.
  * A Python function that can block forever (for example on
    `await process.wait()` for a process that never exits) is embedded as a
    function into `Option`, where `none` means the call never returns.
  * Python exceptions are embedded as explicit `Except` / error values
    (`PyError`), and Python string operations (`startswith`, slicing, `in`,
    `lower`) as the `py...` helpers on `String`.
-/

namespace PyAzMcp

/-- JSON values as produced by `json.loads` / consumed by `json.dumps`.
Numbers are restricted to integers; no claim inspects numeric payloads. -/
inductive Json where
  | null : Json
  | bool (b : Bool) : Json
  | num (n : Int) : Json
  | str (s : String) : Json
  | arr (xs : List Json) : Json
  | obj (fields : List (String × Json)) : Json

/-- A wire string: either the `json.dumps` serialization of a unique JSON
value, or a text that `json.loads` rejects.  This is the semantic model of
the strings that `run_azure_command` returns and `azure_cli` re-parses. -/
inductive Wire where
  | json (j : Json) : Wire
  | raw (s : String) : Wire

/-- Model of `json.dumps`. -/
def json_dumps (j : Json) : Wire := Wire.json j

/-- Model of `json.loads`: succeeds exactly on serialized JSON values. -/
def json_loads : Wire → Option Json
  | Wire.json j => some j
  | Wire.raw _ => none

/-- Python dict lookup on a JSON object's field list (later duplicate keys
override earlier ones, as in `json.loads`). -/
def dictGet (fields : List (String × Json)) (k : String) : Option Json :=
  fields.foldl (fun acc p => if p.1 == k then some p.2 else acc) none

/-- The "status" field of an envelope object. -/
def jsonStatus : Json → Option Json
  | Json.obj fields => dictGet fields "status"
  | _ => none

/-- The "message" field of an envelope object. -/
def jsonMessage : Json → Option Json
  | Json.obj fields => dictGet fields "message"
  | _ => none

/-- The "error" field of an envelope object. -/
def jsonErrorField : Json → Option Json
  | Json.obj fields => dictGet fields "error"
  | _ => none

/-- The "output" field of an envelope object. -/
def jsonOutputField : Json → Option Json
  | Json.obj fields => dictGet fields "output"
  | _ => none

/-! Envelopes built by `run_azure_command` and `azure_cli`
(src/server-azure.py, lines 193-204, 216-228, 301-305, 311-315). -/

/-- Envelope of lines 193-197: timeout fired on a long-running command. -/
def still_running_envelope : Json :=
  Json.obj [("status", Json.str "running"),
            ("message", Json.str "Operation is still in progress. Please check status later."),
            ("error", Json.null)]

/-- Envelope of lines 200-204: timeout fired on a non-long-running command. -/
def timeout_envelope (t : Nat) : Json :=
  Json.obj [("status", Json.str "timeout"),
            ("message", Json.str ("Operation timed out after " ++ toString t ++ " seconds")),
            ("error", Json.str "Operation took longer than expected")]

/-- Envelope of lines 216-220: stdout bytes could not be decoded as UTF-8. -/
def encoding_error_envelope : Json :=
  Json.obj [("status", Json.str "error"),
            ("message", Json.str "Unable to decode command output"),
            ("error", Json.str "Output encoding error")]

/-- Envelope of lines 224-228: the process exited non-zero; the captured
stderr text is carried in the "error" field. -/
def exec_error_envelope (stderrText : String) : Json :=
  Json.obj [("status", Json.str "error"),
            ("message", Json.str "Command execution failed"),
            ("error", Json.str stderrText)]

/-- Envelope of lines 301-305: the runner result was not valid JSON; the
complete raw output is carried in the "output" field. -/
def not_json_envelope (raw : String) : Json :=
  Json.obj [("status", Json.str "error"),
            ("message", Json.str "Command output is not valid JSON"),
            ("output", Json.str raw)]

/-! The process runner `run_azure_command` (lines 155-228). -/

/-- Observable behavior of one spawned external process. -/
structure ProcBehavior where
  /-- Time (in seconds since spawn) at which both output streams reach EOF
  and the chunked `read_stream` loops of lines 172-177 finish; `none` if the
  streams never close. -/
  readsDone : Option Nat
  /-- Time at which the process exits; `none` if it never exits. -/
  exitTime : Option Nat
  /-- `process.returncode` after exit. -/
  exitCode : Int
  /-- Decoded stdout (`none` models a `UnicodeDecodeError` at line 214;
  otherwise the text together with its JSON-parse status). -/
  stdout : Option Wire
  /-- Decoded stderr text. -/
  stderr : String

/-- Python truthiness of the `timeout` argument (`if timeout:` at line 166):
`None` and `0` are falsy. -/
def timeoutTruthy : Option Nat → Bool
  | none => false
  | some t => t != 0

/-- Whether the two `read_stream` loops finish within `t` seconds, i.e.
whether `asyncio.wait_for(..., timeout=t)` at lines 180-186 completes
before the timer fires. -/
def readsWithin (p : ProcBehavior) (t : Nat) : Bool :=
  match p.readsDone with
  | some r => r ≤ t
  | none => false

/-- Lines 208-228: what `run_azure_command` returns once the process has
exited naturally.  A non-zero exit raises `CalledProcessError` (line 209),
which the handler at lines 222-228 turns into the error envelope carrying
the stderr text; exit 0 returns the decoded stdout text (line 213), or the
encoding-error envelope if decoding fails (lines 214-220). -/
def finish_process (p : ProcBehavior) : Wire :=
  if p.exitCode ≠ 0 then
    Wire.json (exec_error_envelope p.stderr)
  else
    match p.stdout with
    | some w => w
    | none => Wire.json encoding_error_envelope

/-- The process runner `run_azure_command` (lines 155-228), as a function of
the spawned process's behavior.  `none` means the call never returns:
  * with a truthy timeout, lines 180-188 race only the two stream reads
    against the timer; if they finish in time, line 188 then waits for
    process exit with no timer, so a process that closed its streams but
    never exits blocks the runner forever;
  * if the timer fires first, lines 190-204 kill the process and return the
    still-running envelope (when `check_status`) or the timeout envelope;
  * with a falsy timeout, line 206 (`process.communicate()`) waits for
    natural exit with no timer at all. -/
def run_azure_command (p : ProcBehavior) (timeout : Option Nat) (check_status : Bool) :
    Option Wire :=
  if timeoutTruthy timeout then
    if readsWithin p (timeout.getD 0) then
      match p.exitTime with
      | some _ => some (finish_process p)
      | none => none
    else
      some (Wire.json (if check_status then still_running_envelope
                       else timeout_envelope (timeout.getD 0)))
  else
    match p.exitTime with
    | some _ => some (finish_process p)
    | none => none

/-! Python string operations used by `azure_cli` (lines 274-295). -/

/-- Python `s.startswith(pre)`. -/
def pyStartswith (s pre : String) : Bool := List.isPrefixOf pre.data s.data

/-- Python `s[n:]`. -/
def pyDrop (n : Nat) (s : String) : String := String.mk (s.data.drop n)

/-- Auxiliary: does `sub` occur as a contiguous run inside `l`? -/
def occursIn (sub : List Char) : List Char → Bool
  | [] => List.isPrefixOf sub []
  | c :: cs => List.isPrefixOf sub (c :: cs) || occursIn sub cs

/-- Python `sub in s` (substring containment). -/
def pyIn (sub s : String) : Bool := occursIn sub.data s.data

/-- Python `s.lower()`. -/
def pyLower (s : String) : String := String.mk (s.data.map Char.toLower)

/-! Command normalization and classification inside `azure_cli`
(lines 274-295). -/

/-- Lines 275-276: remove the leading `az ` program-name token if present. -/
def strip_az (command : String) : String :=
  if pyStartswith command "az " then pyDrop 3 command else command

/-- Line 279: `any(fmt in command for fmt in ['--output', '-o'])`. -/
def hasOutputFmt (command : String) : Bool :=
  pyIn "--output" command || pyIn "-o" command

/-- Lines 279-280: append `--output json` when no output format is present. -/
def append_output_json (command : String) : String :=
  if hasOutputFmt command then command else command ++ " --output json"

/-- Lines 274-280: the full command normalization of `azure_cli`. -/
def normalize_command (command : String) : String :=
  append_output_json (strip_az command)

/-- Auxiliary: split a character list on single spaces (accumulator holds
the current token reversed). -/
def pySplitAux : List Char → List Char → List String
  | [], acc => [String.mk acc.reverse]
  | c :: cs, acc =>
    if c = ' ' then String.mk acc.reverse :: pySplitAux cs []
    else pySplitAux cs (c :: acc)

/-- Whitespace tokens of a command line. -/
def commandTokens (command : String) : List String :=
  pySplitAux command.data []

/-- Does one command-line token constitute an output-format request
(`--output FMT`, `--output=FMT`, `-o FMT` or `-oFMT`)? -/
def token_requests_output (tok : String) : Bool :=
  tok == "--output" || pyStartswith tok "--output=" || pyStartswith tok "-o"

/-- Spec-side comparison definition, following the claim's words "the
caller did not explicitly request an output format": an explicit request
means some whitespace-delimited token of the command is an output-format
flag.  This is deliberately NOT the code's detection (`hasOutputFmt`,
line 279), which looks for the substrings `--output` / `-o` anywhere in
the command text; the two are compared in the C6 counterexample. -/
def requests_output_format (command : String) : Bool :=
  (commandTokens command).any token_requests_output

/-- Line 283-286: the fixed marker list of the long-running classifier. -/
def long_running_markers : List String :=
  ["create", "delete", "start", "stop", "restart", "update",
   "scale", "backup", "restore", "deploy"]

/-- Lines 283-286: `any(op in command.lower() for op in [...])`. -/
def check_status_of (command : String) : Bool :=
  long_running_markers.any (fun m => pyIn m (pyLower command))

/-- Line 295: `"--output table" in command or "-o table" in command`
(the negation of the condition guarding the JSON re-parse). -/
def is_tabular (command : String) : Bool :=
  pyIn "--output table" command || pyIn "-o table" command

/-- Lines 294-305: the broker's handling of the runner's result string.
When tabular output was requested the raw text is returned untouched;
otherwise the result is re-parsed as JSON and re-serialized, and a parse
failure produces the not-valid-JSON envelope carrying the raw output. -/
def handle_result (command : String) (result : Wire) : Wire :=
  if is_tabular command then result
  else
    match json_loads result with
    | some parsed => json_dumps parsed
    | none =>
        Wire.json (not_json_envelope (match result with
                                      | Wire.raw s => s
                                      | Wire.json _ => ""))

/-- Lines 267-305 of `azure_cli`, on the path where no exception is raised:
normalize the command, classify it, run it, and post-process the result.
`none` propagates a runner that never returns. -/
def azure_cli_body (command : String) (timeout : Option Nat) (p : ProcBehavior) :
    Option Wire :=
  (run_azure_command p timeout (check_status_of (normalize_command command))).map
    (handle_result (normalize_command command))

/-! The credential lifecycle manager: `authenticate_with_service_principal`
(lines 230-257) and `ensure_valid_token` (lines 259-265). -/

/-- Python exceptions that the credential code can raise. -/
inductive PyError where
  /-- `EnvironmentError` of line 237 (missing principal identity). -/
  | environmentError (msg : String) : PyError
  /-- `RuntimeError` of line 257 (the designated authentication fault). -/
  | runtimeError (msg : String) : PyError
  /-- `KeyError` from `token_info['expiresOn']` at line 254 when the parsed
  object has no such key. -/
  | keyError (k : String) : PyError
  /-- `ValueError` from `datetime.strptime` at line 254 when the timestamp
  does not match the fixed format. -/
  | valueError (badText : String) : PyError
  /-- `TypeError` when `token_info` is not a dict or `expiresOn` is not a
  string. -/
  | typeError (msg : String) : PyError

/-- The credential state: the module-global `TOKEN_EXPIRES_AT` (line 149),
`none` when no credential is held.  The expiry is an integer point on an
abstract linear time scale standing for the parsed `datetime`. -/
structure AuthState where
  token_expires_at : Option Int

/-- Line 150: `TOKEN_REFRESH_MARGIN = 300`. -/
def TOKEN_REFRESH_MARGIN : Int := 300

/-- Auxiliary for `strptime`: split off exactly `n` characters. -/
def takeFixed (n : Nat) (cs : List Char) : Option (List Char × List Char) :=
  if n ≤ cs.length then some (cs.take n, cs.drop n) else none

/-- Auxiliary for `strptime`: consume one expected literal character. -/
def expectChar (c : Char) : List Char → Option (List Char)
  | x :: xs => if x = c then some xs else none
  | [] => none

/-- Decimal value of a digit run. -/
def digitsVal (cs : List Char) : Nat :=
  cs.foldl (fun a c => a * 10 + (c.toNat - 48)) 0

/-- Auxiliary for `strptime`: read exactly `n` digits and their value. -/
def readDigits (n : Nat) (cs : List Char) : Option (Nat × List Char) :=
  match takeFixed n cs with
  | some (ds, rest) => if ds.all Char.isDigit then some (digitsVal ds, rest) else none
  | none => none

/-- Model of `datetime.strptime(s, "%Y-%m-%d %H:%M:%S.%f")` (line 254),
restricted to the canonical zero-padded rendering of the format (4-digit
year, 2-digit month/day/hour/minute/second, 1-6 fractional digits); the
result is the timestamp linearized onto the abstract time scale.  `none`
models the `ValueError` Python raises on a non-matching string. -/
def strptime (s : String) : Option Int :=
  (readDigits 4 s.data).bind fun yc =>
  (expectChar '-' yc.2).bind fun cs1 =>
  (readDigits 2 cs1).bind fun moc =>
  (expectChar '-' moc.2).bind fun cs2 =>
  (readDigits 2 cs2).bind fun dc =>
  (expectChar ' ' dc.2).bind fun cs3 =>
  (readDigits 2 cs3).bind fun hc =>
  (expectChar ':' hc.2).bind fun cs4 =>
  (readDigits 2 cs4).bind fun mic =>
  (expectChar ':' mic.2).bind fun cs5 =>
  (readDigits 2 cs5).bind fun secc =>
  (expectChar '.' secc.2).bind fun frac =>
  if frac ≠ [] ∧ frac.length ≤ 6 ∧ frac.all Char.isDigit then
    some (Int.ofNat (((((yc.1 * 12 + moc.1) * 31 + dc.1) * 24
        + hc.1) * 60 + mic.1) * 60 + secc.1))
  else none

/-- `authenticate_with_service_principal` (lines 230-257), as a function of
the environment (`env_ok`: all three principal-identity variables present),
the wire results of the two `run_azure_command` calls (`login` for
`az login`, `fetch` for `az account get-access-token`) and the prior
credential state.  Returns the raised exception or success, and the new
state.

Faithfulness notes, each traceable to the source:
  * `run_azure_command` never raises on a failing CLI step — it catches
    `CalledProcessError` itself (lines 222-228) and returns an error
    envelope string — so the `login` result is discarded unread and a
    failing login has no effect at all on this function;
  * `json.loads(result)` at line 251 raises `JSONDecodeError` exactly when
    `fetch` is not valid JSON, and that is the only exception the
    `except` clause of line 256 can actually catch here, producing the
    `RuntimeError` of line 257;
  * `token_info['expiresOn']` raises `KeyError` when the key is absent and
    `TypeError` when `token_info` is not a dict; `datetime.strptime` raises
    `ValueError` on a non-matching string and `TypeError` on a non-string —
    none of these are caught by line 256, so they escape as-is;
  * the global `TOKEN_EXPIRES_AT` is assigned only at line 254, after every
    step has succeeded. -/
def authenticate_with_service_principal (env_ok : Bool) (login fetch : Wire)
    (s : AuthState) : Except PyError Unit × AuthState :=
  if env_ok then
    let _ := login
    match fetch with
    | Wire.raw _ =>
        (Except.error (PyError.runtimeError "Failed to authenticate with service principal"), s)
    | Wire.json j =>
        match j with
        | Json.obj fields =>
            match dictGet fields "expiresOn" with
            | none => (Except.error (PyError.keyError "expiresOn"), s)
            | some (Json.str ts) =>
                match strptime ts with
                | some e => (Except.ok (), { token_expires_at := some e })
                | none => (Except.error (PyError.valueError ts), s)
            | some _ =>
                (Except.error (PyError.typeError "strptime argument must be str"), s)
        | _ =>
            (Except.error (PyError.typeError "token_info indices must be str"), s)
  else
    (Except.error (PyError.environmentError
        "Missing environment variables for service principal authentication"), s)

/-- Lines 263-264: the refresh condition of `ensure_valid_token` —
`TOKEN_EXPIRES_AT is None or now + TOKEN_REFRESH_MARGIN >= TOKEN_EXPIRES_AT`. -/
def needs_refresh (now : Int) (s : AuthState) : Bool :=
  match s.token_expires_at with
  | none => true
  | some exp => decide (now + TOKEN_REFRESH_MARGIN ≥ exp)

/-- `ensure_valid_token` (lines 259-265): refresh when no credential is held
or the expiry is within the margin; otherwise a no-op.  The final `Bool`
records whether the re-authentication handshake was invoked. -/
def ensure_valid_token (now : Int) (env_ok : Bool) (login fetch : Wire)
    (s : AuthState) : Except PyError Unit × AuthState × Bool :=
  if needs_refresh now s then
    let r := authenticate_with_service_principal env_ok login fetch s
    (r.1, r.2, true)
  else
    (Except.ok (), s, false)

/-! The retry-on-auth-failure path of `azure_cli` (lines 307-315). -/

/-- Line 308: the authentication-failure signature test
`"authentication failed" in str(e).lower()`. -/
def auth_failure_signature (msg : String) : Bool :=
  pyIn "authentication failed" (pyLower msg)

/-- Envelope of lines 311-315: a non-authentication exception is converted
into an error envelope carrying `str(e)`. -/
def generic_error_envelope (msg : String) : Json :=
  Json.obj [("status", Json.str "error"),
            ("message", Json.str "Command execution failed"),
            ("error", Json.str msg)]

/-- The retry structure of `azure_cli` (lines 267-315).  One "attempt" is
the whole `try` block (credential check, normalization, run,
post-processing): it either returns a wire value or raises an exception
carrying `str(e)`; `attempts n` is the outcome of the `(n+1)`-st attempt.
The `except` clause (lines 307-315) re-authenticates and recursively calls
`azure_cli` whenever the message matches the authentication-failure
signature — with a fresh `try`/`except` at every level and no attempt
counter.  The first argument is recursion fuel: a result of `none` means
no recursion bound suffices, i.e. the Python recursion never returns
normally.  On `some (w, k)`, `w` is the value returned to the caller and
`k` the number of `authenticate_with_service_principal` calls (equally:
re-executions) the except-handlers performed. -/
def azure_cli_with_retries : Nat → (Nat → Except String Wire) → Option (Wire × Nat)
  | 0, _ => none
  | fuel + 1, attempts =>
    match attempts 0 with
    | Except.ok w => some (w, 0)
    | Except.error msg =>
      if auth_failure_signature msg then
        match azure_cli_with_retries fuel (fun n => attempts (n + 1)) with
        | some (w, k) => some (w, k + 1)
        | none => none
      else
        some (Wire.json (generic_error_envelope msg), 0)

/-- An execution environment in which every attempt raises an exception
matching the authentication-failure signature. -/
def persistent_auth_failure : Nat → Except String Wire :=
  fun _ => Except.error "Authentication failed"

/-- An execution environment in which the first two attempts raise an
authentication failure and the third succeeds. -/
def auth_failure_twice_then_ok : Nat → Except String Wire :=
  fun n => if n < 2 then Except.error "Authentication failed" else Except.ok (Wire.raw "ok")

/-! Concrete process behaviors used as test vectors. -/

/-- A process that never produces output and never exits (the timer fires). -/
def stuck_process : ProcBehavior :=
  { readsDone := none, exitTime := none, exitCode := 0, stdout := none, stderr := "" }

/-- A process that closes both output streams immediately but never exits. -/
def closes_streams_never_exits : ProcBehavior :=
  { readsDone := some 0, exitTime := none, exitCode := 0,
    stdout := some (Wire.raw ""), stderr := "" }

/-- A process that exits 1 with stderr `ResourceNotFound`. -/
def failing_process : ProcBehavior :=
  { readsDone := some 0, exitTime := some 1, exitCode := 1,
    stdout := some (Wire.raw ""), stderr := "ResourceNotFound" }

/-- A process that exits 0 with JSON stdout. -/
def ok_json_process : ProcBehavior :=
  { readsDone := some 0, exitTime := some 1, exitCode := 0,
    stdout := some (Wire.json (Json.obj [("name", Json.str "vm1")])), stderr := "" }

/-- A process that exits 0 with non-JSON stdout. -/
def ok_raw_process : ProcBehavior :=
  { readsDone := some 0, exitTime := some 1, exitCode := 0,
    stdout := some (Wire.raw "WARNING no json here"), stderr := "" }

/-- Helper evaluation: the exception text raised on an authentication
failure matches the signature test of line 308. -/
theorem auth_sig_auth_failed : auth_failure_signature "Authentication failed" = true := rfl

/-! Claim theorems. -/

/-- C1 (code bug): the claim says an authentication-failure signature
triggers exactly one `forceReauthenticate` plus one re-execution, and that
a second consecutive authentication failure is surfaced as-is, with never
more than one retry per external call.  The code (lines 307-310) instead
handles the failure by a recursive self-call with a fresh `try`/`except`
and no attempt counter: when the first two attempts fail with the
signature, the handler performs a second re-authentication and a third
attempt (count 2, not at most 1), and when every attempt fails with the
signature the recursion never surfaces the failure at all (no recursion
bound suffices). -/
theorem auth_retry_unbounded :
    (azure_cli_with_retries 10 auth_failure_twice_then_ok = some (Wire.raw "ok", 2))
  ∧ (∀ fuel, azure_cli_with_retries fuel persistent_auth_failure = none) := by
  constructor
  · rfl
  · intro fuel
    induction fuel with
    | zero => rfl
    | succ n ih =>
      have h : (azure_cli_with_retries n fun _ => Except.error "Authentication failed") = none :=
        ih
      simp [azure_cli_with_retries, persistent_auth_failure, auth_sig_auth_failed, h]

/-- C2 (counterexample): the claim says the wait for process exit is raced
against the timer together with the stream reads, so the runner returns
within the timeout budget even when the process closes its output streams
but never exits.  On the code, `await process.wait()` (line 188) sits
outside `asyncio.wait_for` (lines 180-186): for a process that closes its
streams at once (reads finish at time 0, well inside the 60-second budget)
but never exits, the runner blocks forever (`none`). -/
theorem reads_raced_but_wait_blocks :
    run_azure_command closes_streams_never_exits (some 60) false = none := rfl

/-- C2 (amended): only the stream reads are raced against the timer.  If
the reads do not finish within the budget, the runner kills the process and
returns the still-running or timeout envelope; but once the reads finish
within the budget, the runner waits for process exit with no timer, so a
process that closed its streams and never exits blocks the runner
indefinitely. -/
theorem timer_bounds_reads_only (p : ProcBehavior) (t : Nat) (cs : Bool) (ht : t ≠ 0) :
    (readsWithin p t = false →
       run_azure_command p (some t) cs
         = some (Wire.json (if cs then still_running_envelope else timeout_envelope t)))
  ∧ (readsWithin p t = true → p.exitTime = none →
       run_azure_command p (some t) cs = none) := by
  have htt : timeoutTruthy (some t) = true := by simp [timeoutTruthy, ht]
  constructor
  · intro hr
    simp [run_azure_command, htt, hr]
  · intro hr he
    simp [run_azure_command, htt, hr, he]

/-- Witness for the amended C2 statement at a concrete behavior. -/
theorem timer_bounds_reads_only_witness :
    run_azure_command closes_streams_never_exits (some 45) true = none :=
  (timer_bounds_reads_only closes_streams_never_exits 45 true (by decide)).2 (by decide) rfl

/-- C3: for every command that exceeds its timeout (the reads do not finish
within the budget, so the timer fires), a command classified long-running
(its lowercased text contains one of the fixed markers, per
`check_status_of`) yields the still-running envelope — whose status is
"running", not "timeout" — and a non-classified command yields the timeout
envelope, whose message reports the timeout in seconds. -/
theorem timeout_disposition (command : String) (t : Nat) (p : ProcBehavior)
    (ht : t ≠ 0) (hr : readsWithin p t = false) :
    (check_status_of (normalize_command command) = true →
       azure_cli_body command (some t) p = some (Wire.json still_running_envelope))
  ∧ (check_status_of (normalize_command command) = false →
       azure_cli_body command (some t) p = some (Wire.json (timeout_envelope t)))
  ∧ jsonStatus still_running_envelope = some (Json.str "running")
  ∧ jsonStatus (timeout_envelope t) = some (Json.str "timeout")
  ∧ jsonMessage (timeout_envelope t)
      = some (Json.str ("Operation timed out after " ++ toString t ++ " seconds")) := by
  have htt : timeoutTruthy (some t) = true := by simp [timeoutTruthy, ht]
  refine ⟨?_, ?_, rfl, rfl, rfl⟩ <;> intro hcs <;>
    simp [azure_cli_body, run_azure_command, htt, hr, hcs, handle_result,
          json_loads, json_dumps]

/-- Witness for C3: a `create` command times out into the still-running
envelope, a `show` command into the timeout envelope. -/
theorem timeout_disposition_witness :
    azure_cli_body "vm create --name x" (some 2) stuck_process
      = some (Wire.json still_running_envelope)
  ∧ azure_cli_body "vm show --name x" (some 2) stuck_process
      = some (Wire.json (timeout_envelope 2)) :=
  ⟨(timeout_disposition "vm create --name x" 2 stuck_process (by decide) (by decide)).1
     (by decide),
   (timeout_disposition "vm show --name x" 2 stuck_process (by decide) (by decide)).2.1
     (by decide)⟩

/-- C4: `ensure_valid_token` triggers the re-authentication handshake iff
no credential is held or the current time is within the fixed 300-second
margin of the held expiry; and two successive calls with a credential
expiring more than the margin in the future perform no handshake at all
(in particular at most one). -/
theorem token_refresh_iff (now : Int) (env_ok : Bool) (login fetch : Wire) (s : AuthState) :
    TOKEN_REFRESH_MARGIN = 300
  ∧ ((ensure_valid_token now env_ok login fetch s).2.2 = true ↔
       s.token_expires_at = none ∨
       ∃ exp, s.token_expires_at = some exp ∧ now + 300 ≥ exp)
  ∧ (∀ exp now2, s.token_expires_at = some exp → now + 300 < exp → now2 + 300 < exp →
       (ensure_valid_token now env_ok login fetch s).2.2 = false ∧
       (ensure_valid_token now2 env_ok login fetch
          (ensure_valid_token now env_ok login fetch s).2.1).2.2 = false) := by
  refine ⟨rfl, ?_, ?_⟩
  · cases h : s.token_expires_at with
    | none => simp [ensure_valid_token, needs_refresh, h]
    | some exp =>
      simp only [ensure_valid_token, needs_refresh, h, TOKEN_REFRESH_MARGIN]
      by_cases hc : exp ≤ now + 300
      · simp [hc]
      · simp [hc]
  · intro exp now2 h1 h2 h3
    have hnr : needs_refresh now s = false := by
      simp [needs_refresh, h1, TOKEN_REFRESH_MARGIN]
      omega
    have hnr2 : needs_refresh now2 s = false := by
      simp [needs_refresh, h1, TOKEN_REFRESH_MARGIN]
      omega
    have hstate : (ensure_valid_token now env_ok login fetch s).2.1 = s := by
      simp [ensure_valid_token, hnr]
    refine ⟨by simp [ensure_valid_token, hnr], ?_⟩
    rw [hstate]
    simp [ensure_valid_token, hnr2]

/-- Witness for C4: with a credential expiring 1000 units in the future,
calls at times 0 and 5 both skip the handshake. -/
theorem token_refresh_iff_witness :
    (ensure_valid_token 0 true (Wire.raw "") (Wire.raw "") ⟨some 1000⟩).2.2 = false
  ∧ (ensure_valid_token 5 true (Wire.raw "") (Wire.raw "")
       (ensure_valid_token 0 true (Wire.raw "") (Wire.raw "") ⟨some 1000⟩).2.1).2.2 = false :=
  (token_refresh_iff 0 true (Wire.raw "") (Wire.raw "") ⟨some 1000⟩).2.2 1000 5 rfl
    (by omega) (by omega)

/-- C5 (code bug): the claim says every failing re-authentication attempt
signals `AuthError` (the `RuntimeError` of line 257) and leaves the held
credential untouched.  The credential is indeed left untouched on every
failure path, but the fault kind is wrong: because `run_azure_command`
converts a failing CLI step into an error-envelope string instead of
raising (lines 222-228), a failing token fetch parses as JSON without an
`expiresOn` key and escapes as an uncaught `KeyError`; an unparseable
expiry escapes as an uncaught `ValueError`; and a failing login step alone
is silently ignored (the handshake even reports success when the fetch
still yields a parseable expiry). -/
theorem auth_failure_exception_kinds :
    (authenticate_with_service_principal true
        (Wire.json (exec_error_envelope "login denied"))
        (Wire.json (exec_error_envelope "fetch denied")) ⟨some 1000⟩
      = (Except.error (PyError.keyError "expiresOn"), ⟨some 1000⟩))
  ∧ (authenticate_with_service_principal true (Wire.raw "ok")
        (Wire.json (Json.obj [("expiresOn", Json.str "soon")])) ⟨some 1000⟩
      = (Except.error (PyError.valueError "soon"), ⟨some 1000⟩))
  ∧ (authenticate_with_service_principal true
        (Wire.json (exec_error_envelope "login denied"))
        (Wire.json (Json.obj [("expiresOn", Json.str "2025-04-21 10:00:00.000000")]))
        ⟨some 1000⟩
      = (Except.ok (), ⟨strptime "2025-04-21 10:00:00.000000"⟩)) :=
  ⟨rfl, rfl, rfl⟩

/-- C6 (counterexample): the claim says a request for JSON output is
appended whenever the caller did not explicitly request an output format.
For the command `vm show --name my-other-vm` no whitespace token is an
output-format flag (`requests_output_format` is false — the caller
requested nothing), yet the broker appends nothing and passes the command
through unchanged: the accidental substring `-o` inside `my-other-vm`
trips the detection of line 279. -/
theorem output_format_detection_counterexample :
    requests_output_format "vm show --name my-other-vm" = false
  ∧ normalize_command "vm show --name my-other-vm" = "vm show --name my-other-vm" :=
  ⟨rfl, rfl⟩

/-- C6 (amended): `azure_cli` strips a leading `az ` token if present; it
appends `--output json` exactly when neither `--output` nor `-o` occurs as
a substring anywhere in the stripped command (the code's detection at
line 279, which an accidental substring such as in `my-other-vm` also
satisfies, suppressing the append); and when the substring
`--output table` or `-o table` occurs in the normalized command, the
runner's raw text is returned untouched with no JSON parsing applied. -/
theorem command_normalization (rest c : String) (w : Wire) :
    (normalize_command ("az " ++ rest) = append_output_json rest)
  ∧ (hasOutputFmt (strip_az c) = false →
       normalize_command c = strip_az c ++ " --output json")
  ∧ (hasOutputFmt (strip_az c) = true →
       normalize_command c = strip_az c)
  ∧ (is_tabular (normalize_command c) = true →
       handle_result (normalize_command c) w = w) := by
  refine ⟨?_, ?_, ?_, ?_⟩
  · cases rest with
    | mk l =>
      have hpre : pyStartswith ("az " ++ String.mk l) "az " = true := by
        show List.isPrefixOf "az ".data ("az " ++ String.mk l).data = true
        have hdata : ("az " ++ String.mk l).data = 'a' :: 'z' :: ' ' :: l := rfl
        rw [hdata]
        simp [List.isPrefixOf]
      have hdrop : pyDrop 3 ("az " ++ String.mk l) = String.mk l := rfl
      simp [normalize_command, strip_az, hpre, hdrop]
  · intro h
    simp [normalize_command, append_output_json, h]
  · intro h
    simp [normalize_command, append_output_json, h]
  · intro h
    simp [handle_result, h]

/-- Witness for the amended C6 at concrete commands: a plain command gets
the JSON request appended, an accidental `-o` substring suppresses the
append, and a tabular request passes the raw text through. -/
theorem command_normalization_witness :
    normalize_command "vm list" = strip_az "vm list" ++ " --output json"
  ∧ normalize_command "vm show --name my-other-vm"
      = strip_az "vm show --name my-other-vm"
  ∧ handle_result (normalize_command "az vm list -o table") (Wire.raw "Name Location")
      = Wire.raw "Name Location" :=
  ⟨(command_normalization "vm list" "vm list" (Wire.raw "Name Location")).2.1 (by decide),
   (command_normalization "x" "vm show --name my-other-vm"
      (Wire.raw "Name Location")).2.2.1 (by decide),
   (command_normalization "x" "az vm list -o table" (Wire.raw "Name Location")).2.2.2
     (by decide)⟩

/-- C7: a process that completes naturally (reads finish within the budget
and the process exits) with a non-zero exit code yields the execution-error
envelope: status "error", and the captured stderr text carried in the
envelope's error field. -/
theorem nonzero_exit_execution_error (command : String) (t : Nat) (p : ProcBehavior)
    (ht : t ≠ 0) (hr : readsWithin p t = true) (he : p.exitTime.isSome = true)
    (hc : p.exitCode ≠ 0) :
    azure_cli_body command (some t) p = some (Wire.json (exec_error_envelope p.stderr))
  ∧ jsonStatus (exec_error_envelope p.stderr) = some (Json.str "error")
  ∧ jsonErrorField (exec_error_envelope p.stderr) = some (Json.str p.stderr) := by
  have htt : timeoutTruthy (some t) = true := by simp [timeoutTruthy, ht]
  obtain ⟨e, hee⟩ := Option.isSome_iff_exists.mp he
  refine ⟨?_, rfl, rfl⟩
  simp [azure_cli_body, run_azure_command, htt, hr, hee, finish_process, hc,
        handle_result, json_loads, json_dumps]

/-- Witness for C7: stderr `ResourceNotFound` is reported in the
execution-error envelope. -/
theorem nonzero_exit_execution_error_witness :
    azure_cli_body "vm show --name x" (some 60) failing_process
      = some (Wire.json (exec_error_envelope "ResourceNotFound"))
  ∧ jsonErrorField (exec_error_envelope "ResourceNotFound")
      = some (Json.str "ResourceNotFound") :=
  ⟨(nonzero_exit_execution_error "vm show --name x" 60 failing_process
      (by decide) (by decide) rfl (by decide)).1,
   (nonzero_exit_execution_error "vm show --name x" 60 failing_process
      (by decide) (by decide) rfl (by decide)).2.2⟩

/-- C8: on natural completion with exit code 0 and tabular output not
requested, the broker parses stdout: parse success returns the parsed
structure re-serialized, parse failure returns the not-valid-JSON envelope
whose output field attaches the complete raw text. -/
theorem exit_zero_parse_dispatch (command : String) (t : Nat) (p : ProcBehavior)
    (ht : t ≠ 0) (hr : readsWithin p t = true) (he : p.exitTime.isSome = true)
    (hc : p.exitCode = 0) (htab : is_tabular (normalize_command command) = false) :
    (∀ j, p.stdout = some (Wire.json j) →
        azure_cli_body command (some t) p = some (Wire.json j))
  ∧ (∀ s, p.stdout = some (Wire.raw s) →
        azure_cli_body command (some t) p = some (Wire.json (not_json_envelope s))
      ∧ jsonOutputField (not_json_envelope s) = some (Json.str s)) := by
  have htt : timeoutTruthy (some t) = true := by simp [timeoutTruthy, ht]
  obtain ⟨e, hee⟩ := Option.isSome_iff_exists.mp he
  constructor
  · intro j hj
    simp [azure_cli_body, run_azure_command, htt, hr, hee, finish_process, hc, hj,
          handle_result, htab, json_loads, json_dumps]
  · intro s hs
    refine ⟨?_, rfl⟩
    simp [azure_cli_body, run_azure_command, htt, hr, hee, finish_process, hc, hs,
          handle_result, htab, json_loads]

/-- Witness for C8 at concrete processes with JSON and non-JSON stdout. -/
theorem exit_zero_parse_dispatch_witness :
    azure_cli_body "vm list" (some 60) ok_json_process
      = some (Wire.json (Json.obj [("name", Json.str "vm1")]))
  ∧ azure_cli_body "vm list" (some 60) ok_raw_process
      = some (Wire.json (not_json_envelope "WARNING no json here")) :=
  ⟨(exit_zero_parse_dispatch "vm list" 60 ok_json_process
      (by decide) (by decide) rfl rfl (by decide)).1 _ rfl,
   ((exit_zero_parse_dispatch "vm list" 60 ok_raw_process
      (by decide) (by decide) rfl rfl (by decide)).2 _ rfl).1⟩

/-- C9: when tabular output was not requested, every value the broker
returns on the no-exception path is the serialization of a single JSON
value (success payload, execution-error, encoding-error, not-valid-JSON,
timeout and still-running envelopes alike), and every runner result that is
itself serialized JSON — in particular every internal error envelope —
passes the broker's re-parse step unchanged. -/
theorem nontabular_results_are_json (command : String) (timeout : Option Nat)
    (p : ProcBehavior) (htab : is_tabular (normalize_command command) = false) :
    (∀ w, azure_cli_body command timeout p = some w → ∃ j, w = Wire.json j)
  ∧ (∀ j, handle_result (normalize_command command) (Wire.json j) = Wire.json j) := by
  constructor
  · intro w hw
    unfold azure_cli_body at hw
    cases hrun : run_azure_command p timeout (check_status_of (normalize_command command)) with
    | none => rw [hrun] at hw; simp at hw
    | some r =>
      rw [hrun] at hw
      simp only [Option.map_some'] at hw
      obtain rfl : handle_result (normalize_command command) r = w := by
        exact Option.some.inj hw
      cases r with
      | json j => exact ⟨j, by simp [handle_result, htab, json_loads, json_dumps]⟩
      | raw s => exact ⟨not_json_envelope s, by simp [handle_result, htab, json_loads]⟩
  · intro j
    simp [handle_result, json_loads, json_dumps]

/-- Witness for C9 at a concrete non-tabular call. -/
theorem nontabular_results_are_json_witness :
    ∃ j, Wire.json (Json.obj [("name", Json.str "vm1")]) = Wire.json j :=
  (nontabular_results_are_json "vm list" (some 60) ok_json_process (by decide)).1
    (Wire.json (Json.obj [("name", Json.str "vm1")])) rfl

/-- C10: a timeout of 0 is falsy in Python, so `run_azure_command` with
`timeout = 0` behaves exactly as with no timeout: it waits indefinitely for
natural process exit (never returning when the process never exits, hence
never producing a timeout or still-running disposition) and returns the
natural-completion result when the process exits. -/
theorem zero_timeout_waits_indefinitely (p : ProcBehavior) (cs : Bool) :
    run_azure_command p (some 0) cs = run_azure_command p none cs
  ∧ (p.exitTime = none → run_azure_command p (some 0) cs = none)
  ∧ (∀ e, p.exitTime = some e →
        run_azure_command p (some 0) cs = some (finish_process p)) := by
  refine ⟨rfl, ?_, ?_⟩
  · intro h
    simp [run_azure_command, timeoutTruthy, h]
  · intro e h
    simp [run_azure_command, timeoutTruthy, h]

/-- Witness for C10: with timeout 0 and a never-exiting process the runner
waits forever instead of timing out. -/
theorem zero_timeout_waits_indefinitely_witness :
    run_azure_command closes_streams_never_exits (some 0) false = none :=
  (zero_timeout_waits_indefinitely closes_streams_never_exits false).2.1 rfl

end PyAzMcp
